import Mathlib

/-!
# A verification development for the `sftp` client package

The package is a thin façade over two collaborators: the `ssh` transport
library and the `pkg/sftp` file-transfer library (plus `io.Copy` from the
standard library).  The collaborators are not part of the package, so they
appear here as a record of operations `Lib σ` over an arbitrary collaborator
state `σ`.  Every collaborator call the package makes is appended to a trace,
so that statements such as "OpenFile is called exactly once" can be phrased.
-/

namespace Sftp

/-! ## Values exchanged with the collaborators -/

/-- A byte of file content. -/
abbrev Byte := UInt8

/-- Go `error` values.  `base` is an error produced by a collaborator with no
wrapped cause; `wrapped msg cause` is what `fmt.Errorf` with a `%w` verb
builds: its message is `msg`, and `errors.Unwrap` yields `cause`. -/
inductive GoError where
  | base (msg : String)
  | wrapped (msg : String) (cause : GoError)
  deriving DecidableEq, Repr

/-- The `Error()` method: the message of an error value. -/
def GoError.Error : GoError → String
  | .base msg => msg
  | .wrapped msg _ => msg

/-- The function `errors.Unwrap`: the wrapped cause, when there is one. -/
def GoError.Unwrap : GoError → Option GoError
  | .base _ => none
  | .wrapped _ cause => some cause

/-- The call `fmt.Errorf(pre + "%w", err)`, where `pre` is the format string up
to the `%w` verb with its `%s` verbs already substituted. -/
def Errorf (pre : String) (err : GoError) : GoError :=
  .wrapped (pre ++ err.Error) err

/-- The type `context.Context`; every operation of the package receives one and
ignores it (the parameter is named `_` in the source). -/
structure Context where
  cancelled : Bool
  deriving DecidableEq, Repr

/-- The type `ssh.AuthMethod`; the package only builds `ssh.Password`. -/
inductive AuthMethod where
  | Password (secret : String)
  deriving DecidableEq, Repr

/-- The type `ssh.HostKeyCallback`; the package only uses
`ssh.InsecureIgnoreHostKey()`. -/
inductive HostKeyCallback where
  | InsecureIgnoreHostKey
  deriving DecidableEq, Repr

/-- The fields of `ssh.ClientConfig` that the package sets. -/
structure ClientConfig where
  User : String
  Auth : List AuthMethod
  HostKeyCallback : HostKeyCallback
  deriving DecidableEq, Repr

/-- A handle `*ssh.Client`, an established transport connection. -/
abbrev SSHClient := Nat

/-- A handle `*sftp.Client` of the collaborator, a file-transfer session. -/
abbrev SFTPClient := Nat

/-- A handle `*sftp.File`, an open remote file. -/
abbrev File := Nat

/-- The interface `os.FileInfo`, as the metadata it reports. -/
structure FileInfo where
  Name : String
  Size : Int
  Mode : Nat
  ModTime : Int
  IsDir : Bool
  deriving DecidableEq, Repr

/-- An `io.Reader` as `io.Copy` observes it: the bytes its `Read` calls yield,
followed by `io.EOF` (`err = none`) or by a read error (`err = some e`). -/
structure Reader where
  bytes : List Byte
  err : Option GoError
  deriving DecidableEq, Repr

/-- The value `bytes.NewReader(bs)`: yields `bs`, then `io.EOF`. -/
def bytesNewReader (bs : List Byte) : Reader := ⟨bs, none⟩

/-- The conversion `[]byte(s)` of a string to its bytes. -/
def bytesOf (s : String) : List Byte := s.toUTF8.data.toList

/-- The value `strings.NewReader(s)`: yields the bytes of `s`, then `io.EOF`. -/
def stringsNewReader (s : String) : Reader := ⟨bytesOf s, none⟩

/-- The constant `os.O_RDWR` (same value on linux, darwin and windows). -/
def O_RDWR : Nat := 0x2

/-- The constant `os.O_WRONLY` (same value on linux, darwin and windows). -/
def O_WRONLY : Nat := 0x1

/-- The constant `os.O_CREATE` (value of `syscall.O_CREAT` on linux). -/
def O_CREATE : Nat := 0x40

/-- The constant `os.O_TRUNC` (value of `syscall.O_TRUNC` on linux). -/
def O_TRUNC : Nat := 0x200

/-! ## The collaborators -/

/-- The operations of the collaborator libraries that the package can reach, as
state transformers over a collaborator state `σ`.  A call that returns
`(value, err)` in Go is an `Except`: the package never inspects the value that
accompanies a non-nil error.  A call that returns only `error` is an
`Option GoError` (`none` is `nil`). -/
structure Lib (σ : Type) where
  /-- The function `ssh.Dial(network, addr, config)`. -/
  sshDial : String → String → ClientConfig → σ → Except GoError SSHClient × σ
  /-- The method `(*ssh.Client).Close()`. -/
  sshClose : SSHClient → σ → Option GoError × σ
  /-- The function `sftp.NewClient(conn)` of the collaborator. -/
  sftpNewClient : SSHClient → σ → Except GoError SFTPClient × σ
  /-- The method `(*sftp.Client).Close()`. -/
  sftpClose : SFTPClient → σ → Option GoError × σ
  /-- The method `(*sftp.Client).Open(path)`. -/
  sftpOpen : SFTPClient → String → σ → Except GoError File × σ
  /-- The method `(*sftp.Client).ReadDir(path)`. -/
  sftpReadDir : SFTPClient → String → σ → Except GoError (List FileInfo) × σ
  /-- The method `(*sftp.Client).Remove(path)`. -/
  sftpRemove : SFTPClient → String → σ → Option GoError × σ
  /-- The method `(*sftp.Client).OpenFile(path, flags)`. -/
  sftpOpenFile : SFTPClient → String → Nat → σ → Except GoError File × σ
  /-- The method `(*sftp.File).Close()`. -/
  fileClose : File → σ → Option GoError × σ
  /-- The function `io.Copy(dst, src)`: the number of bytes written and the
  first error met while copying, if any. -/
  ioCopy : File → Reader → σ → (Nat × Option GoError) × σ

/-- One collaborator call, with its arguments. -/
inductive Call where
  | sshDial (network addr : String) (config : ClientConfig)
  | sshClose (conn : SSHClient)
  | sftpNewClient (conn : SSHClient)
  | sftpClose (c : SFTPClient)
  | sftpOpen (c : SFTPClient) (path : String)
  | sftpReadDir (c : SFTPClient) (path : String)
  | sftpRemove (c : SFTPClient) (path : String)
  | sftpOpenFile (c : SFTPClient) (path : String) (flags : Nat)
  | fileClose (f : File)
  | ioCopy (dst : File) (src : Reader)
  deriving DecidableEq, Repr

/-- The collaborator state together with the calls made so far, oldest first. -/
structure World (σ : Type) where
  st : σ
  trace : List Call

/-- Perform one collaborator call `op`, recording it as `ev`. -/
def call {σ α : Type} (ev : Call) (op : σ → α × σ) (w : World σ) : α × World σ :=
  ((op w.st).1, ⟨(op w.st).2, w.trace ++ [ev]⟩)

/-- The calls made between the world `before` and the later world `after`. -/
def newCalls {σ : Type} (before after : World σ) : List Call :=
  after.trace.drop before.trace.length

/-! ## The package -/

/-- The struct `Config`. -/
structure Config where
  User : String
  Password : String
  Addr : String
  deriving DecidableEq, Repr

/-- The struct `Client`. -/
structure Client where
  sshClient : SSHClient
  sftpClient : SFTPClient
  deriving DecidableEq, Repr

/-- The `sshConfig` value that `NewClient` builds from its configuration. -/
def sshConfigOf (cfg : Config) : ClientConfig :=
  { User := cfg.User
    Auth := [AuthMethod.Password cfg.Password]
    HostKeyCallback := HostKeyCallback.InsecureIgnoreHostKey }

/-- The function `NewClient`.  The Go result `(*Client, error)` is a pair of
options, `none` being `nil`. -/
def NewClient {σ : Type} (lib : Lib σ) (cfg : Config) (w : World σ) :
    (Option Client × Option GoError) × World σ :=
  let sshConfig := sshConfigOf cfg
  match call (.sshDial "tcp" cfg.Addr sshConfig) (lib.sshDial "tcp" cfg.Addr sshConfig) w with
  | (.error err, w1) => ((none, some (Errorf "failed to connect ssh: " err)), w1)
  | (.ok sshClient, w1) =>
    match call (.sftpNewClient sshClient) (lib.sftpNewClient sshClient) w1 with
    | (.error err, w2) => ((none, some (Errorf "failed to connect sftp: " err)), w2)
    | (.ok sftpClient, w2) =>
      ((some { sshClient := sshClient, sftpClient := sftpClient }, none), w2)

/-- The method `Client.Close`. -/
def Client.Close {σ : Type} (lib : Lib σ) (c : Client) (w : World σ) :
    Option GoError × World σ :=
  call (.sftpClose c.sftpClient) (lib.sftpClose c.sftpClient) w

/-- The method `Client.Open`. -/
def Client.Open {σ : Type} (lib : Lib σ) (c : Client) (_ctx : Context) (path : String)
    (w : World σ) : (Option File × Option GoError) × World σ :=
  match call (.sftpOpen c.sftpClient path) (lib.sftpOpen c.sftpClient path) w with
  | (.error err, w1) => ((none, some (Errorf ("failed to open " ++ path ++ ": ") err)), w1)
  | (.ok f, w1) => ((some f, none), w1)

/-- The method `Client.ReadDir`. -/
def Client.ReadDir {σ : Type} (lib : Lib σ) (c : Client) (_ctx : Context) (path : String)
    (w : World σ) : (Option (List FileInfo) × Option GoError) × World σ :=
  match call (.sftpReadDir c.sftpClient path) (lib.sftpReadDir c.sftpClient path) w with
  | (.error err, w1) =>
    ((none, some (Errorf ("failed to read directory " ++ path ++ ": ") err)), w1)
  | (.ok files, w1) => ((some files, none), w1)

/-- The method `Client.Remove`. -/
def Client.Remove {σ : Type} (lib : Lib σ) (c : Client) (_ctx : Context) (path : String)
    (w : World σ) : Option GoError × World σ :=
  match call (.sftpRemove c.sftpClient path) (lib.sftpRemove c.sftpClient path) w with
  | (some err, w1) => (some (Errorf ("failed to remove " ++ path ++ ": ") err), w1)
  | (none, w1) => (none, w1)

/-- The method `Client.Save`.  The deferred `f.Close()` runs once the return
value is fixed, on both paths that follow a successful `OpenFile`; what it
returns is dropped. -/
def Client.Save {σ : Type} (lib : Lib σ) (c : Client) (_ctx : Context) (filename : String)
    (r : Reader) (w : World σ) : Option GoError × World σ :=
  match call (.sftpOpenFile c.sftpClient filename (O_WRONLY ||| O_CREATE ||| O_TRUNC))
      (lib.sftpOpenFile c.sftpClient filename (O_WRONLY ||| O_CREATE ||| O_TRUNC)) w with
  | (.error err, w1) => (some (Errorf ("failed to open file " ++ filename ++ ": ") err), w1)
  | (.ok f, w1) =>
    match call (.ioCopy f r) (lib.ioCopy f r) w1 with
    | ((_, some err), w2) =>
      (some (Errorf ("failed to save file " ++ filename ++ ": ") err),
        (call (.fileClose f) (lib.fileClose f) w2).2)
    | ((_, none), w2) => (none, (call (.fileClose f) (lib.fileClose f) w2).2)

/-- The method `Client.SaveBytes`. -/
def Client.SaveBytes {σ : Type} (lib : Lib σ) (c : Client) (ctx : Context) (filename : String)
    (bs : List Byte) (w : World σ) : Option GoError × World σ :=
  c.Save lib ctx filename (bytesNewReader bs) w

/-- The method `Client.SaveString`. -/
def Client.SaveString {σ : Type} (lib : Lib σ) (c : Client) (ctx : Context) (filename : String)
    (s : String) (w : World σ) : Option GoError × World σ :=
  c.Save lib ctx filename (stringsNewReader s) w

/-- Whether a call opens a remote file (`Open` or `OpenFile`). -/
def Call.opensFile : Call → Bool
  | .sftpOpen _ _ => true
  | .sftpOpenFile _ _ _ => true
  | _ => false

/-- Whether a call closes a remote file. -/
def Call.closesFile : Call → Bool
  | .fileClose _ => true
  | _ => false

/-- Whether a call removes a remote file. -/
def Call.removesFile : Call → Bool
  | .sftpRemove _ _ => true
  | _ => false

/-- Run the collaborator operation `op` on the first component of the state
and note the request `ev` in the second: the collaborator's own record of what
it was asked. -/
def observe {σ α : Type} (ev : Call) (op : σ → α × σ) (s : σ × List Call) :
    α × (σ × List Call) :=
  ((op s.1).1, ((op s.1).2, s.2 ++ [ev]))

/-- The collaborator `lib`, made to keep a record of the requests it receives:
each operation behaves as in `lib` and notes itself, with the arguments it was
handed, in the record.  The record is part of the collaborator's state, so it
holds what was applied, whatever the package wrote in its trace. -/
def spy {σ : Type} (lib : Lib σ) : Lib (σ × List Call) where
  sshDial := fun network addr config =>
    observe (.sshDial network addr config) (lib.sshDial network addr config)
  sshClose := fun conn => observe (.sshClose conn) (lib.sshClose conn)
  sftpNewClient := fun conn => observe (.sftpNewClient conn) (lib.sftpNewClient conn)
  sftpClose := fun c => observe (.sftpClose c) (lib.sftpClose c)
  sftpOpen := fun c path => observe (.sftpOpen c path) (lib.sftpOpen c path)
  sftpReadDir := fun c path => observe (.sftpReadDir c path) (lib.sftpReadDir c path)
  sftpRemove := fun c path => observe (.sftpRemove c path) (lib.sftpRemove c path)
  sftpOpenFile := fun c path flags =>
    observe (.sftpOpenFile c path flags) (lib.sftpOpenFile c path flags)
  fileClose := fun f => observe (.fileClose f) (lib.fileClose f)
  ioCopy := fun f r => observe (.ioCopy f r) (lib.ioCopy f r)

/-- Whether `target` occurs in the message `msg`. -/
def mentions (msg target : String) : Bool :=
  msg.data.tails.any fun t => target.data.isPrefixOf t

/-! ## A model remote store

A concrete collaborator (a fake server), used to run the package end to end: a
flat store that maps paths to byte sequences, a table of open file handles,
and the sets of live transport connections and file-transfer sessions.  It is
an input to the package, like a configuration or a path: the general theorems
below hold for every collaborator, and this one serves where a statement is
about a store or needs a concrete run. -/

/-- Bind key `k` to `v` in an association list, replacing any earlier binding. -/
def bind {α β : Type} [BEq α] (k : α) (v : β) (l : List (α × β)) : List (α × β) :=
  (k, v) :: l.filter (fun e => !(e.1 == k))

/-- The state of the model remote side, which the package reaches only through
its collaborators.  `files` maps each path to its bytes;
`handles` maps each open file handle to its path and current offset; `conns`
and `sessions` are the live transport connections and file-transfer sessions
(each session with the connection it is layered on); `next` is the next fresh
handle. -/
structure Remote where
  files : List (String × List Byte)
  handles : List (File × (String × Nat))
  conns : List SSHClient
  sessions : List (SFTPClient × SSHClient)
  next : Nat
  deriving DecidableEq, Repr

/-- The dial on the model store: it always connects, on a fresh connection. -/
def Remote.dial (s : Remote) : Except GoError SSHClient × Remote :=
  (.ok s.next, { s with conns := s.next :: s.conns, next := s.next + 1 })

/-- Closing a transport connection on the model store ends it and every
session layered on it. -/
def Remote.hangUp (conn : SSHClient) (s : Remote) : Option GoError × Remote :=
  (none, { s with conns := s.conns.filter (fun k => !(k == conn))
                  sessions := s.sessions.filter (fun e => !(e.2 == conn)) })

/-- The session setup on the model store: it always starts a fresh session on
the given connection. -/
def Remote.startSession (conn : SSHClient) (s : Remote) : Except GoError SFTPClient × Remote :=
  (.ok s.next, { s with sessions := (s.next, conn) :: s.sessions, next := s.next + 1 })

/-- A collaborator's session close that ends the session only: the connection
the session was layered on stays in `conns`. -/
def Remote.endSession (c : SFTPClient) (s : Remote) : Option GoError × Remote :=
  (none, { s with sessions := s.sessions.filter (fun e => !(e.1 == c)) })

/-- Opening an existing file of the model store for reading, at offset zero;
fails when the path does not exist. -/
def Remote.openRead (path : String) (s : Remote) : Except GoError File × Remote :=
  match s.files.lookup path with
  | none => (.error (.base "file does not exist"), s)
  | some _ =>
    (.ok s.next, { s with handles := bind s.next (path, 0) s.handles, next := s.next + 1 })

/-- The entries of the model store, in stored order. -/
def Remote.list (s : Remote) : Except GoError (List FileInfo) × Remote :=
  (.ok (s.files.map fun e =>
    { Name := e.1, Size := e.2.length, Mode := 0x1a4, ModTime := 0, IsDir := false }), s)

/-- Deleting a file of the model store; fails when the path does not exist. -/
def Remote.unlink (path : String) (s : Remote) : Option GoError × Remote :=
  match s.files.lookup path with
  | none => (some (.base "file does not exist"), s)
  | some _ => (none, { s with files := s.files.filter (fun e => !(e.1 == path)) })

/-- Opening a file of the model store with a flag word.  A create request that
also asks for read access is rejected, as the transfer service named in the
comment on `Client.sftpClient` does; a missing file is created when `O_CREATE` is set;
the contents are emptied when `O_TRUNC` is set.  The handle starts at offset
zero. -/
def Remote.openFlags (path : String) (flags : Nat) (s : Remote) : Except GoError File × Remote :=
  if flags &&& O_CREATE ≠ 0 ∧ flags &&& O_RDWR ≠ 0 then
    (.error (.base "permission denied"), s)
  else
    match s.files.lookup path with
    | none =>
      if flags &&& O_CREATE ≠ 0 then
        (.ok s.next, { s with files := bind path [] s.files
                              handles := bind s.next (path, 0) s.handles
                              next := s.next + 1 })
      else (.error (.base "file does not exist"), s)
    | some old =>
      (.ok s.next, { s with files := bind path (if flags &&& O_TRUNC ≠ 0 then [] else old) s.files
                            handles := bind s.next (path, 0) s.handles
                            next := s.next + 1 })

/-- Closing a file handle of the model store removes it from the table. -/
def Remote.closeFile (f : File) (s : Remote) : Option GoError × Remote :=
  (none, { s with handles := s.handles.filter (fun e => !(e.1 == f)) })

/-- One `Write` on an open handle of the model store.  The bytes replace
the file's contents from the handle's offset on (padding with zero bytes when
the offset lies past the end) and the offset advances by the bytes written. -/
def Remote.write (f : File) (p : List Byte) (s : Remote) : (Nat × Option GoError) × Remote :=
  match s.handles.lookup f with
  | none => ((0, some (.base "file already closed")), s)
  | some (path, off) =>
    match s.files.lookup path with
    | none => ((0, some (.base "file does not exist")), s)
    | some old =>
      ((p.length, none),
        { s with files := bind path
                   (old.take off ++ List.replicate (off - old.length) 0 ++ p
                     ++ old.drop (off + p.length)) s.files
                 handles := bind f (path, off + p.length) s.handles })

/-- The copy loop of the model store over a transfer window of `win` bytes:
while bytes remain, write the next `win` of them; stop at the first write
error.  `fuel` bounds the number of rounds. -/
def copyChunks (win : Nat) (f : File) : Nat → List Byte → Remote → (Nat × Option GoError) × Remote
  | 0, _, s => ((0, none), s)
  | fuel + 1, bs, s =>
    if bs.isEmpty then ((0, none), s)
    else
      match s.write f (bs.take win) with
      | ((n, some e), s1) => ((n, some e), s1)
      | ((n, none), s1) =>
        ((n + (copyChunks win f fuel (bs.drop win) s1).1.1,
          (copyChunks win f fuel (bs.drop win) s1).1.2),
         (copyChunks win f fuel (bs.drop win) s1).2)

/-- The copy onto the model store (its `io.Copy`): the bytes of the
source are written window by window; a write error ends the copy, otherwise the
result is the read error of the source, if it has one. -/
def Remote.copy (win : Nat) (f : File) (r : Reader) (s : Remote) :
    (Nat × Option GoError) × Remote :=
  match copyChunks win f r.bytes.length r.bytes s with
  | ((n, some e), s1) => ((n, some e), s1)
  | ((n, none), s1) => ((n, r.err), s1)

/-- One `Read` of at most `n` bytes on an open handle of the model store:
the bytes from the handle's offset on, with the offset advanced past them; an
empty result is end of stream.  `none` is a read on a handle that is not open
or whose file is gone. -/
def Remote.read (f : File) (n : Nat) (s : Remote) : Option (List Byte × Remote) :=
  match s.handles.lookup f with
  | none => none
  | some (path, off) =>
    match s.files.lookup path with
    | none => none
    | some bs =>
      some ((bs.drop off).take n,
        { s with handles := bind f (path, off + ((bs.drop off).take n).length) s.handles })

/-- Reading an open handle of the model store to end of stream, `win` bytes at
a time, in at most `fuel` reads. -/
def readToEnd (win : Nat) (f : File) : Nat → Remote → Option (List Byte)
  | 0, _ => none
  | fuel + 1, s =>
    match s.read f win with
    | none => none
    | some (chunk, s1) =>
      if chunk.isEmpty then some []
      else (readToEnd win f fuel s1).map (chunk ++ ·)

/-- The model store as a collaborator, with transfer window `win`.  No session argument is checked: every session reaches the one
store. -/
def modelLib (win : Nat) : Lib Remote where
  sshDial := fun _ _ _ s => s.dial
  sshClose := fun conn s => s.hangUp conn
  sftpNewClient := fun conn s => s.startSession conn
  sftpClose := fun c s => s.endSession c
  sftpOpen := fun _ path s => s.openRead path
  sftpReadDir := fun _ _ s => s.list
  sftpRemove := fun _ path s => s.unlink path
  sftpOpenFile := fun _ path flags s => s.openFlags path flags
  fileClose := fun f s => s.closeFile f
  ioCopy := fun f r s => s.copy win f r

/-- A collaborator like `modelLib`, except that setting up the file-transfer
session is refused. -/
def refusingLib (win : Nat) : Lib Remote :=
  { modelLib win with
    sftpNewClient := fun _ s => (.error (.base "subsystem request failed"), s) }

/-- A collaborator like `modelLib`, except that every call that can fail does,
with a distinct cause. -/
def failingLib (win : Nat) : Lib Remote :=
  { modelLib win with
    sshDial := fun _ _ _ s =>
      (.error (.base "ssh: handshake failed: ssh: unable to authenticate"), s)
    sftpClose := fun _ s => (some (.base "connection lost"), s)
    sftpOpen := fun _ _ s => (.error (.base "file does not exist"), s)
    sftpReadDir := fun _ _ s => (.error (.base "not a directory"), s)
    sftpRemove := fun _ _ s => (some (.base "permission denied"), s)
    sftpOpenFile := fun _ _ _ s => (.error (.base "permission denied"), s)
    fileClose := fun _ s => (some (.base "close failed"), s)
    ioCopy := fun _ _ s => ((0, some (.base "short write")), s) }

/-- A collaborator like `modelLib`, except that closing a file reports an
error (after releasing the handle). -/
def closeFailingLib (win : Nat) : Lib Remote :=
  { modelLib win with
    fileClose := fun f s => (some (.base "close failed"), (s.closeFile f).2) }

/-- A collaborator like `modelLib`, except that the copy fails after writing
the first window of the source. -/
def copyFailingLib (win : Nat) : Lib Remote :=
  { modelLib win with
    ioCopy := fun f r s =>
      ((win, some (.base "connection lost")), (s.write f (r.bytes.take win)).2) }

/-- The empty store: no files, no handles, nothing connected. -/
def Remote.empty : Remote :=
  { files := [], handles := [], conns := [], sessions := [], next := 1 }

/-- The world at start: the empty store and no calls made. -/
def World.init : World Remote := ⟨Remote.empty, []⟩

/-- In store `s`, handle `f` is open on `path` and stands at the end of the
file's contents `content`. -/
def AtEnd (s : Remote) (f : File) (path : String) (content : List Byte) : Prop :=
  s.handles.lookup f = some (path, content.length) ∧ s.files.lookup path = some content

/-- In store `s`, handle `f` is open on `path` at offset `off` and the file
holds `content`. -/
def ReadsFrom (s : Remote) (f : File) (path : String) (content : List Byte) (off : Nat) :
    Prop :=
  s.handles.lookup f = some (path, off) ∧ s.files.lookup path = some content

/-- A sample configuration. -/
def sampleConfig : Config :=
  { User := "bob", Password := "wrong", Addr := "sftp.example.com:22" }

/-- The handle `NewClient` returns on the empty model store. -/
def sampleClient : Client := { sshClient := 1, sftpClient := 2 }

/-- A sample context. -/
def sampleContext : Context := { cancelled := false }

/-- A model store holding one file, with a session established on it. -/
def sampleStore : Remote :=
  { files := [("old.txt", [111, 108, 100])], handles := [], conns := [1],
    sessions := [(2, 1)], next := 3 }

/-- The world of `sampleStore`, after the two calls that set up the session. -/
def sampleWorld : World Remote :=
  ⟨sampleStore, [.sshDial "tcp" sampleConfig.Addr (sshConfigOf sampleConfig), .sftpNewClient 1]⟩

/-! ## Basic facts about recorded calls -/

section Basics

variable {σ : Type}

theorem newCalls_append (w : World σ) (s : σ) (l : List Call) :
    newCalls w ⟨s, w.trace ++ l⟩ = l := by
  simp [newCalls]

theorem Save_open_error (lib : Lib σ) (c : Client) (ctx : Context) (filename : String)
    (r : Reader) (w : World σ) (e : GoError) (s1 : σ)
    (h : lib.sftpOpenFile c.sftpClient filename (O_WRONLY ||| O_CREATE ||| O_TRUNC) w.st
      = (.error e, s1)) :
    c.Save lib ctx filename r w
      = (some (Errorf ("failed to open file " ++ filename ++ ": ") e),
         ⟨s1, w.trace ++ [.sftpOpenFile c.sftpClient filename (O_WRONLY ||| O_CREATE ||| O_TRUNC)]⟩) := by
  simp [Client.Save, call, h]

theorem Save_copy_error (lib : Lib σ) (c : Client) (ctx : Context) (filename : String)
    (r : Reader) (w : World σ) (f : File) (s1 s2 : σ) (n : Nat) (e : GoError)
    (h : lib.sftpOpenFile c.sftpClient filename (O_WRONLY ||| O_CREATE ||| O_TRUNC) w.st
      = (.ok f, s1))
    (hc : lib.ioCopy f r s1 = ((n, some e), s2)) :
    c.Save lib ctx filename r w
      = (some (Errorf ("failed to save file " ++ filename ++ ": ") e),
         ⟨(lib.fileClose f s2).2,
          w.trace ++ [.sftpOpenFile c.sftpClient filename (O_WRONLY ||| O_CREATE ||| O_TRUNC),
            .ioCopy f r, .fileClose f]⟩) := by
  simp [Client.Save, call, h, hc]

theorem Save_copy_ok (lib : Lib σ) (c : Client) (ctx : Context) (filename : String)
    (r : Reader) (w : World σ) (f : File) (s1 s2 : σ) (n : Nat)
    (h : lib.sftpOpenFile c.sftpClient filename (O_WRONLY ||| O_CREATE ||| O_TRUNC) w.st
      = (.ok f, s1))
    (hc : lib.ioCopy f r s1 = ((n, none), s2)) :
    c.Save lib ctx filename r w
      = (none,
         ⟨(lib.fileClose f s2).2,
          w.trace ++ [.sftpOpenFile c.sftpClient filename (O_WRONLY ||| O_CREATE ||| O_TRUNC),
            .ioCopy f r, .fileClose f]⟩) := by
  simp [Client.Save, call, h, hc]

/-- The three shapes a run of `Save` can take, by the outcome of `OpenFile` and
of the copy. -/
theorem Save_cases (lib : Lib σ) (c : Client) (filename : String)
    (r : Reader) (w : World σ) :
    (∃ e s1, lib.sftpOpenFile c.sftpClient filename (O_WRONLY ||| O_CREATE ||| O_TRUNC) w.st
        = (.error e, s1))
    ∨ (∃ f s1 n e s2,
        lib.sftpOpenFile c.sftpClient filename (O_WRONLY ||| O_CREATE ||| O_TRUNC) w.st
          = (.ok f, s1) ∧ lib.ioCopy f r s1 = ((n, some e), s2))
    ∨ (∃ f s1 n s2,
        lib.sftpOpenFile c.sftpClient filename (O_WRONLY ||| O_CREATE ||| O_TRUNC) w.st
          = (.ok f, s1) ∧ lib.ioCopy f r s1 = ((n, none), s2)) := by
  rcases h : lib.sftpOpenFile c.sftpClient filename (O_WRONLY ||| O_CREATE ||| O_TRUNC) w.st
    with ⟨res, s1⟩
  cases res with
  | error e => exact Or.inl ⟨e, s1, rfl⟩
  | ok f =>
    rcases hc : lib.ioCopy f r s1 with ⟨⟨n, oe⟩, s2⟩
    cases oe with
    | some e => exact Or.inr (Or.inl ⟨f, s1, n, e, s2, rfl, hc⟩)
    | none => exact Or.inr (Or.inr ⟨f, s1, n, s2, rfl, hc⟩)

end Basics

/-! ## Save -/

section SaveFacts

variable {σ : Type}

/-- The calls of a run of `Save` that open a file: the one `OpenFile`. -/
theorem Save_opening_calls (lib : Lib σ) (c : Client) (ctx : Context) (filename : String)
    (r : Reader) (w : World σ) :
    (newCalls w (c.Save lib ctx filename r w).2).filter Call.opensFile
      = [Call.sftpOpenFile c.sftpClient filename (O_WRONLY ||| O_CREATE ||| O_TRUNC)] := by
  rcases Save_cases lib c filename r w with ⟨e, s1, h⟩ | ⟨f, s1, n, e, s2, h, hc⟩ |
    ⟨f, s1, n, s2, h, hc⟩
  · rw [Save_open_error lib c ctx filename r w e s1 h, newCalls_append]
    simp [Call.opensFile]
  · rw [Save_copy_error lib c ctx filename r w f s1 s2 n e h hc, newCalls_append]
    simp [Call.opensFile]
  · rw [Save_copy_ok lib c ctx filename r w f s1 s2 n h hc, newCalls_append]
    simp [Call.opensFile]

/-- A run of `Save` against the recording collaborator: result, state and
trace are those of the run against `lib`, and the collaborator's record grows
by exactly the calls of that run. -/
theorem Save_spy (lib : Lib σ) (c : Client) (ctx : Context) (filename : String)
    (r : Reader) (w : World σ) (log : List Call) :
    c.Save (spy lib) ctx filename r ⟨(w.st, log), w.trace⟩
      = ((c.Save lib ctx filename r w).1,
         ⟨((c.Save lib ctx filename r w).2.st,
            log ++ newCalls w (c.Save lib ctx filename r w).2),
          (c.Save lib ctx filename r w).2.trace⟩) := by
  rcases Save_cases lib c filename r w with ⟨e, s1, h⟩ | ⟨f, s1, n, e, s2, h, hc⟩ |
    ⟨f, s1, n, s2, h, hc⟩
  · rw [Save_open_error lib c ctx filename r w e s1 h, newCalls_append]
    exact Save_open_error (spy lib) c ctx filename r ⟨(w.st, log), w.trace⟩ e
      (s1, log ++ [.sftpOpenFile c.sftpClient filename (O_WRONLY ||| O_CREATE ||| O_TRUNC)])
      (by simp [spy, observe, h])
  · rw [Save_copy_error lib c ctx filename r w f s1 s2 n e h hc, newCalls_append]
    rw [Save_copy_error (spy lib) c ctx filename r ⟨(w.st, log), w.trace⟩ f
      (s1, log ++ [.sftpOpenFile c.sftpClient filename (O_WRONLY ||| O_CREATE ||| O_TRUNC)])
      (s2, log ++ [.sftpOpenFile c.sftpClient filename (O_WRONLY ||| O_CREATE ||| O_TRUNC)]
        ++ [.ioCopy f r]) n e
      (by simp [spy, observe, h]) (by simp [spy, observe, hc])]
    simp [spy, observe]
  · rw [Save_copy_ok lib c ctx filename r w f s1 s2 n h hc, newCalls_append]
    rw [Save_copy_ok (spy lib) c ctx filename r ⟨(w.st, log), w.trace⟩ f
      (s1, log ++ [.sftpOpenFile c.sftpClient filename (O_WRONLY ||| O_CREATE ||| O_TRUNC)])
      (s2, log ++ [.sftpOpenFile c.sftpClient filename (O_WRONLY ||| O_CREATE ||| O_TRUNC)]
        ++ [.ioCopy f r]) n
      (by simp [spy, observe, h]) (by simp [spy, observe, hc])]
    simp [spy, observe]

/-- The file-opening requests the recording collaborator receives during a run
of `Save`: the one `OpenFile` with the write-only flag word. -/
theorem Save_received (lib : Lib σ) (c : Client) (ctx : Context) (filename : String)
    (r : Reader) (w : World σ) (log : List Call) :
    ((c.Save (spy lib) ctx filename r ⟨(w.st, log), w.trace⟩).2.st.2.drop log.length).filter
        Call.opensFile
      = [Call.sftpOpenFile c.sftpClient filename (O_WRONLY ||| O_CREATE ||| O_TRUNC)] := by
  rw [Save_spy]
  simp only [List.drop_left]
  exact Save_opening_calls lib c ctx filename r w

/-- C1: for every collaborator, client, filename and byte-source, `Save` hands
the collaborator exactly one file-opening request, an `OpenFile` on the
filename with the flag word `O_WRONLY|O_CREATE|O_TRUNC`.  This is stated on the
collaborator's side: a collaborator that keeps a record of the requests it
receives ends the run with a record that grew by exactly the calls in the
trace of `Save`, of which the only one that opens a file is that `OpenFile`;
and the state and result `Save` returns are the ones that follow from the
collaborator's answer to `OpenFile` with that flag word (its state if it
refuses, the state after the copy and the close on the file it returned
otherwise).  In the flag word the write-only, create and truncate bits are set
and the `O_RDWR` bit is clear.  The same holds for `SaveBytes` and
`SaveString`, which are `Save` on a reader over their argument. -/
theorem Save_opens_write_only (lib : Lib σ) (c : Client) (ctx : Context) (filename : String)
    (r : Reader) (w : World σ) :
    (∀ log : List Call,
        (c.Save (spy lib) ctx filename r ⟨(w.st, log), w.trace⟩).2.st.2
            = log ++ newCalls w (c.Save lib ctx filename r w).2
        ∧ ((c.Save (spy lib) ctx filename r ⟨(w.st, log), w.trace⟩).2.st.2.drop
              log.length).filter Call.opensFile
            = [Call.sftpOpenFile c.sftpClient filename (O_WRONLY ||| O_CREATE ||| O_TRUNC)]
        ∧ (c.Save (spy lib) ctx filename r ⟨(w.st, log), w.trace⟩).1
            = (c.Save lib ctx filename r w).1
        ∧ (c.Save (spy lib) ctx filename r ⟨(w.st, log), w.trace⟩).2.st.1
            = (c.Save lib ctx filename r w).2.st)
    ∧ (∀ e s1, lib.sftpOpenFile c.sftpClient filename (O_WRONLY ||| O_CREATE ||| O_TRUNC) w.st
          = (.error e, s1) →
        (c.Save lib ctx filename r w).2.st = s1
        ∧ (c.Save lib ctx filename r w).1
            = some (Errorf ("failed to open file " ++ filename ++ ": ") e))
    ∧ (∀ f s1, lib.sftpOpenFile c.sftpClient filename (O_WRONLY ||| O_CREATE ||| O_TRUNC) w.st
          = (.ok f, s1) →
        (c.Save lib ctx filename r w).2.st = (lib.fileClose f (lib.ioCopy f r s1).2).2
        ∧ ((c.Save lib ctx filename r w).1 = none ↔ (lib.ioCopy f r s1).1.2 = none))
    ∧ (newCalls w (c.Save lib ctx filename r w).2).filter Call.opensFile
        = [Call.sftpOpenFile c.sftpClient filename (O_WRONLY ||| O_CREATE ||| O_TRUNC)]
    ∧ (O_WRONLY ||| O_CREATE ||| O_TRUNC) &&& O_WRONLY = O_WRONLY
    ∧ (O_WRONLY ||| O_CREATE ||| O_TRUNC) &&& O_CREATE = O_CREATE
    ∧ (O_WRONLY ||| O_CREATE ||| O_TRUNC) &&& O_TRUNC = O_TRUNC
    ∧ (O_WRONLY ||| O_CREATE ||| O_TRUNC) &&& O_RDWR = 0
    ∧ (∀ bs : List Byte,
        c.SaveBytes lib ctx filename bs w = c.Save lib ctx filename (bytesNewReader bs) w
        ∧ (∀ log : List Call,
            ((c.SaveBytes (spy lib) ctx filename bs ⟨(w.st, log), w.trace⟩).2.st.2.drop
                log.length).filter Call.opensFile
              = [Call.sftpOpenFile c.sftpClient filename (O_WRONLY ||| O_CREATE ||| O_TRUNC)])
        ∧ (newCalls w (c.SaveBytes lib ctx filename bs w).2).filter Call.opensFile
          = [Call.sftpOpenFile c.sftpClient filename (O_WRONLY ||| O_CREATE ||| O_TRUNC)])
    ∧ (∀ s : String,
        c.SaveString lib ctx filename s w = c.Save lib ctx filename (stringsNewReader s) w
        ∧ (∀ log : List Call,
            ((c.SaveString (spy lib) ctx filename s ⟨(w.st, log), w.trace⟩).2.st.2.drop
                log.length).filter Call.opensFile
              = [Call.sftpOpenFile c.sftpClient filename (O_WRONLY ||| O_CREATE ||| O_TRUNC)])
        ∧ (newCalls w (c.SaveString lib ctx filename s w).2).filter Call.opensFile
          = [Call.sftpOpenFile c.sftpClient filename (O_WRONLY ||| O_CREATE ||| O_TRUNC)]) := by
  refine ⟨?_, ?_, ?_, Save_opening_calls lib c ctx filename r w, by decide, by decide,
    by decide, by decide, ?_, ?_⟩
  · intro log
    refine ⟨?_, Save_received lib c ctx filename r w log, ?_, ?_⟩ <;> rw [Save_spy]
  · intro e s1 h
    rw [Save_open_error lib c ctx filename r w e s1 h]
    exact ⟨rfl, rfl⟩
  · intro f s1 h
    rcases hc : lib.ioCopy f r s1 with ⟨⟨n, oe⟩, s2⟩
    cases oe with
    | some e =>
      rw [Save_copy_error lib c ctx filename r w f s1 s2 n e h hc]
      simp
    | none =>
      rw [Save_copy_ok lib c ctx filename r w f s1 s2 n h hc]
      simp
  · intro bs
    exact ⟨rfl, fun log => Save_received lib c ctx filename (bytesNewReader bs) w log,
      Save_opening_calls lib c ctx filename (bytesNewReader bs) w⟩
  · intro s
    exact ⟨rfl, fun log => Save_received lib c ctx filename (stringsNewReader s) w log,
      Save_opening_calls lib c ctx filename (stringsNewReader s) w⟩

/-- C2: when `OpenFile` succeeds with file `f`, the calls of `Save` are the
`OpenFile`, the copy and then one `Close` of `f`, whatever the copy returns,
so `f` is closed exactly once and last; when `OpenFile` fails, `Save` makes no
`Close` call on any file. -/
theorem Save_closes_destination (lib : Lib σ) (c : Client) (ctx : Context)
    (filename : String) (r : Reader) (w : World σ) :
    (∀ f s1, lib.sftpOpenFile c.sftpClient filename (O_WRONLY ||| O_CREATE ||| O_TRUNC) w.st
        = (.ok f, s1) →
      (newCalls w (c.Save lib ctx filename r w).2).count (Call.fileClose f) = 1
      ∧ (newCalls w (c.Save lib ctx filename r w).2).filter Call.closesFile = [Call.fileClose f]
      ∧ (newCalls w (c.Save lib ctx filename r w).2).getLast? = some (Call.fileClose f)
      ∧ (c.Save lib ctx filename r w).2.st = (lib.fileClose f (lib.ioCopy f r s1).2).2)
    ∧ (∀ e s1, lib.sftpOpenFile c.sftpClient filename (O_WRONLY ||| O_CREATE ||| O_TRUNC) w.st
        = (.error e, s1) →
      (newCalls w (c.Save lib ctx filename r w).2).filter Call.closesFile = []) := by
  constructor
  · intro f s1 h
    rcases hc : lib.ioCopy f r s1 with ⟨⟨n, oe⟩, s2⟩
    cases oe with
    | some e =>
      rw [Save_copy_error lib c ctx filename r w f s1 s2 n e h hc, newCalls_append]
      simp [Call.closesFile]
    | none =>
      rw [Save_copy_ok lib c ctx filename r w f s1 s2 n h hc, newCalls_append]
      simp [Call.closesFile]
  · intro e s1 h
    rw [Save_open_error lib c ctx filename r w e s1 h, newCalls_append]
    simp [Call.closesFile]

/-- C3: if `OpenFile` fails with cause `e`, `Save` returns the error
"failed to open file <filename>: <e>" wrapping `e` and its only call is the
`OpenFile` (no copy); if `OpenFile` succeeds and the copy fails with cause `e`,
`Save` returns the error "failed to save file <filename>: <e>" wrapping `e` and
its calls are the `OpenFile`, the copy and the `Close` (no `Remove`); `Save`
returns nil exactly when the open and the copy both succeed, with no condition
on what `Close` returns. -/
theorem Save_error_results (lib : Lib σ) (c : Client) (ctx : Context)
    (filename : String) (r : Reader) (w : World σ) :
    (∀ e s1, lib.sftpOpenFile c.sftpClient filename (O_WRONLY ||| O_CREATE ||| O_TRUNC) w.st
        = (.error e, s1) →
      (c.Save lib ctx filename r w).1
          = some (.wrapped ("failed to open file " ++ filename ++ ": " ++ e.Error) e)
      ∧ newCalls w (c.Save lib ctx filename r w).2
          = [Call.sftpOpenFile c.sftpClient filename (O_WRONLY ||| O_CREATE ||| O_TRUNC)])
    ∧ (∀ f s1 n e s2,
        lib.sftpOpenFile c.sftpClient filename (O_WRONLY ||| O_CREATE ||| O_TRUNC) w.st
          = (.ok f, s1) →
        lib.ioCopy f r s1 = ((n, some e), s2) →
      (c.Save lib ctx filename r w).1
          = some (.wrapped ("failed to save file " ++ filename ++ ": " ++ e.Error) e)
      ∧ newCalls w (c.Save lib ctx filename r w).2
          = [Call.sftpOpenFile c.sftpClient filename (O_WRONLY ||| O_CREATE ||| O_TRUNC),
             Call.ioCopy f r, Call.fileClose f]
      ∧ (newCalls w (c.Save lib ctx filename r w).2).filter Call.removesFile = [])
    ∧ ((c.Save lib ctx filename r w).1 = none ↔
        ∃ f s1 n s2,
          lib.sftpOpenFile c.sftpClient filename (O_WRONLY ||| O_CREATE ||| O_TRUNC) w.st
            = (.ok f, s1)
          ∧ lib.ioCopy f r s1 = ((n, none), s2)) := by
  refine ⟨?_, ?_, ?_⟩
  · intro e s1 h
    rw [Save_open_error lib c ctx filename r w e s1 h, newCalls_append]
    simp [Errorf, String.append_assoc]
  · intro f s1 n e s2 h hc
    rw [Save_copy_error lib c ctx filename r w f s1 s2 n e h hc, newCalls_append]
    simp [Errorf, String.append_assoc, Call.removesFile]
  · rcases Save_cases lib c filename r w with ⟨e, s1, h⟩ | ⟨f, s1, n, e, s2, h, hc⟩ |
      ⟨f, s1, n, s2, h, hc⟩
    · rw [Save_open_error lib c ctx filename r w e s1 h]
      simp [h]
    · rw [Save_copy_error lib c ctx filename r w f s1 s2 n e h hc]
      simp [h, hc]
    · rw [Save_copy_ok lib c ctx filename r w f s1 s2 n h hc]
      simp only [true_iff]
      exact ⟨f, s1, n, s2, h, hc⟩

end SaveFacts

/-! ## NewClient -/

section NewClientFacts

variable {σ : Type}

theorem NewClient_dial_error (lib : Lib σ) (cfg : Config) (w : World σ) (e : GoError) (s1 : σ)
    (h : lib.sshDial "tcp" cfg.Addr (sshConfigOf cfg) w.st = (.error e, s1)) :
    NewClient lib cfg w
      = ((none, some (Errorf "failed to connect ssh: " e)),
         ⟨s1, w.trace ++ [.sshDial "tcp" cfg.Addr (sshConfigOf cfg)]⟩) := by
  simp [NewClient, call, h]

theorem NewClient_session_error (lib : Lib σ) (cfg : Config) (w : World σ) (conn : SSHClient)
    (e : GoError) (s1 s2 : σ)
    (h : lib.sshDial "tcp" cfg.Addr (sshConfigOf cfg) w.st = (.ok conn, s1))
    (hs : lib.sftpNewClient conn s1 = (.error e, s2)) :
    NewClient lib cfg w
      = ((none, some (Errorf "failed to connect sftp: " e)),
         ⟨s2, w.trace ++ [.sshDial "tcp" cfg.Addr (sshConfigOf cfg), .sftpNewClient conn]⟩) := by
  simp [NewClient, call, h, hs]

theorem NewClient_ok (lib : Lib σ) (cfg : Config) (w : World σ) (conn : SSHClient)
    (sess : SFTPClient) (s1 s2 : σ)
    (h : lib.sshDial "tcp" cfg.Addr (sshConfigOf cfg) w.st = (.ok conn, s1))
    (hs : lib.sftpNewClient conn s1 = (.ok sess, s2)) :
    NewClient lib cfg w
      = ((some { sshClient := conn, sftpClient := sess }, none),
         ⟨s2, w.trace ++ [.sshDial "tcp" cfg.Addr (sshConfigOf cfg), .sftpNewClient conn]⟩) := by
  simp [NewClient, call, h, hs]

/-- The three shapes a run of `NewClient` can take, by the outcome of the dial
and of the session setup. -/
theorem NewClient_cases (lib : Lib σ) (cfg : Config) (w : World σ) :
    (∃ e s1, lib.sshDial "tcp" cfg.Addr (sshConfigOf cfg) w.st = (.error e, s1))
    ∨ (∃ conn s1 e s2, lib.sshDial "tcp" cfg.Addr (sshConfigOf cfg) w.st = (.ok conn, s1)
        ∧ lib.sftpNewClient conn s1 = (.error e, s2))
    ∨ (∃ conn s1 sess s2, lib.sshDial "tcp" cfg.Addr (sshConfigOf cfg) w.st = (.ok conn, s1)
        ∧ lib.sftpNewClient conn s1 = (.ok sess, s2)) := by
  rcases h : lib.sshDial "tcp" cfg.Addr (sshConfigOf cfg) w.st with ⟨res, s1⟩
  cases res with
  | error e => exact Or.inl ⟨e, s1, rfl⟩
  | ok conn =>
    rcases hs : lib.sftpNewClient conn s1 with ⟨res2, s2⟩
    cases res2 with
    | error e => exact Or.inr (Or.inl ⟨conn, s1, e, s2, rfl, hs⟩)
    | ok sess => exact Or.inr (Or.inr ⟨conn, s1, sess, s2, rfl, hs⟩)

/-- C6: `NewClient` returns either a handle and a nil error, or a nil handle
and an error; a handle `c` is returned exactly when the dial succeeds with
`c.sshClient` and the session setup on that connection succeeds with
`c.sftpClient`; when the dial fails with cause `e`, the result is a nil handle
and the error "failed to connect ssh: <e>" wrapping `e`, and the dial is the
only collaborator call made. -/
theorem NewClient_all_or_nothing (lib : Lib σ) (cfg : Config) (w : World σ) :
    ((∃ c, (NewClient lib cfg w).1 = (some c, none))
      ∨ (∃ err, (NewClient lib cfg w).1 = (none, some err)))
    ∧ (∀ c, (NewClient lib cfg w).1.1 = some c ↔
        ∃ s1 s2, lib.sshDial "tcp" cfg.Addr (sshConfigOf cfg) w.st = (.ok c.sshClient, s1)
          ∧ lib.sftpNewClient c.sshClient s1 = (.ok c.sftpClient, s2))
    ∧ (∀ e s1, lib.sshDial "tcp" cfg.Addr (sshConfigOf cfg) w.st = (.error e, s1) →
        (NewClient lib cfg w).1
            = (none, some (.wrapped ("failed to connect ssh: " ++ e.Error) e))
        ∧ newCalls w (NewClient lib cfg w).2 = [Call.sshDial "tcp" cfg.Addr (sshConfigOf cfg)]
        ∧ (NewClient lib cfg w).2.st = s1) := by
  refine ⟨?_, ?_, ?_⟩
  · rcases NewClient_cases lib cfg w with ⟨e, s1, h⟩ | ⟨conn, s1, e, s2, h, hs⟩ |
      ⟨conn, s1, sess, s2, h, hs⟩
    · rw [NewClient_dial_error lib cfg w e s1 h]
      exact Or.inr ⟨_, rfl⟩
    · rw [NewClient_session_error lib cfg w conn e s1 s2 h hs]
      exact Or.inr ⟨_, rfl⟩
    · rw [NewClient_ok lib cfg w conn sess s1 s2 h hs]
      exact Or.inl ⟨_, rfl⟩
  · intro c
    rcases NewClient_cases lib cfg w with ⟨e, s1, h⟩ | ⟨conn, s1, e, s2, h, hs⟩ |
      ⟨conn, s1, sess, s2, h, hs⟩
    · rw [NewClient_dial_error lib cfg w e s1 h]
      simp [h]
    · rw [NewClient_session_error lib cfg w conn e s1 s2 h hs]
      simp only [reduceCtorEq, false_iff, not_exists, not_and]
      intro t1 t2 h1 h2
      rw [h] at h1
      cases h1
      rw [hs] at h2
      cases h2
    · rw [NewClient_ok lib cfg w conn sess s1 s2 h hs]
      constructor
      · intro hc
        cases hc
        exact ⟨s1, s2, h, hs⟩
      · rintro ⟨t1, t2, h1, h2⟩
        rw [h] at h1
        cases h1
        rw [hs] at h2
        cases h2
        rfl
  · intro e s1 h
    rw [NewClient_dial_error lib cfg w e s1 h, newCalls_append]
    simp [Errorf]

end NewClientFacts

/-! ## Open, ReadDir, Remove and Close -/

section Passthrough

variable {σ : Type}

theorem Open_calls (lib : Lib σ) (c : Client) (ctx : Context) (path : String) (w : World σ) :
    (c.Open lib ctx path w).2
      = ⟨(lib.sftpOpen c.sftpClient path w.st).2, w.trace ++ [.sftpOpen c.sftpClient path]⟩ := by
  unfold Client.Open call
  split <;> simp_all

theorem ReadDir_calls (lib : Lib σ) (c : Client) (ctx : Context) (path : String)
    (w : World σ) :
    (c.ReadDir lib ctx path w).2
      = ⟨(lib.sftpReadDir c.sftpClient path w.st).2,
         w.trace ++ [.sftpReadDir c.sftpClient path]⟩ := by
  unfold Client.ReadDir call
  split <;> simp_all

theorem Remove_calls (lib : Lib σ) (c : Client) (ctx : Context) (path : String)
    (w : World σ) :
    (c.Remove lib ctx path w).2
      = ⟨(lib.sftpRemove c.sftpClient path w.st).2,
         w.trace ++ [.sftpRemove c.sftpClient path]⟩ := by
  unfold Client.Remove call
  split <;> simp_all

theorem Open_result (lib : Lib σ) (c : Client) (ctx : Context) (path : String) (w : World σ) :
    (c.Open lib ctx path w).1
      = match (lib.sftpOpen c.sftpClient path w.st).1 with
        | .error e => (none, some (Errorf ("failed to open " ++ path ++ ": ") e))
        | .ok f => (some f, none) := by
  unfold Client.Open call
  split <;> simp_all

theorem ReadDir_result (lib : Lib σ) (c : Client) (ctx : Context) (path : String)
    (w : World σ) :
    (c.ReadDir lib ctx path w).1
      = match (lib.sftpReadDir c.sftpClient path w.st).1 with
        | .error e => (none, some (Errorf ("failed to read directory " ++ path ++ ": ") e))
        | .ok files => (some files, none) := by
  unfold Client.ReadDir call
  split <;> simp_all

theorem Remove_result (lib : Lib σ) (c : Client) (ctx : Context) (path : String)
    (w : World σ) :
    (c.Remove lib ctx path w).1
      = match (lib.sftpRemove c.sftpClient path w.st).1 with
        | some e => some (Errorf ("failed to remove " ++ path ++ ": ") e)
        | none => none := by
  unfold Client.Remove call
  split <;> simp_all

end Passthrough

/-! ## The model store -/

section ModelStore

theorem lookup_bind {α β : Type} [BEq α] [LawfulBEq α] (k : α) (v : β) (l : List (α × β)) :
    (bind k v l).lookup k = some v := by
  simp [bind, List.lookup]

theorem drop_length_take {α : Type} (n : Nat) (t : List α) :
    t.drop (t.take n).length = t.drop n := by
  rcases Nat.le_total n t.length with h | h
  · rw [List.length_take, Nat.min_eq_left h]
  · rw [List.length_take, Nat.min_eq_right h, List.drop_eq_nil_of_le (Nat.le_refl _),
      List.drop_eq_nil_of_le h]

/-- Opening with the flag word of `Save` always succeeds on the model store and
leaves the file empty, with a fresh handle at its start. -/
theorem openFlags_save (path : String) (s : Remote) :
    s.openFlags path (O_WRONLY ||| O_CREATE ||| O_TRUNC)
      = (.ok s.next, { s with files := bind path [] s.files
                              handles := bind s.next (path, 0) s.handles
                              next := s.next + 1 }) := by
  have h1 : ¬ ((O_WRONLY ||| O_CREATE ||| O_TRUNC) &&& O_CREATE ≠ 0
      ∧ (O_WRONLY ||| O_CREATE ||| O_TRUNC) &&& O_RDWR ≠ 0) := by decide
  have h2 : (O_WRONLY ||| O_CREATE ||| O_TRUNC) &&& O_CREATE ≠ 0 := by decide
  have h3 : (O_WRONLY ||| O_CREATE ||| O_TRUNC) &&& O_TRUNC ≠ 0 := by decide
  unfold Remote.openFlags
  rw [if_neg h1]
  cases s.files.lookup path with
  | none => simp only [if_pos h2]
  | some old => simp only [if_pos h3]

theorem write_at_end (s : Remote) (f : File) (path : String) (old p : List Byte)
    (h : AtEnd s f path old) :
    s.write f p
      = ((p.length, none),
         { s with files := bind path (old ++ p) s.files
                  handles := bind f (path, (old ++ p).length) s.handles }) := by
  obtain ⟨hh, hf⟩ := h
  have hd : old.drop (old.length + p.length) = [] :=
    List.drop_eq_nil_of_le (Nat.le_add_right _ _)
  unfold Remote.write
  rw [hh]
  simp only [hf]
  simp [hd]

theorem atEnd_after_write (s : Remote) (f : File) (path : String) (old p : List Byte) :
    AtEnd { s with files := bind path (old ++ p) s.files
                   handles := bind f (path, (old ++ p).length) s.handles } f path (old ++ p) :=
  ⟨lookup_bind _ _ _, lookup_bind _ _ _⟩

/-- The copy loop of the model store, started at the end of the file and given
a round of fuel per byte, appends the whole source and reports no error. -/
theorem copyChunks_appends (win : Nat) (hwin : 0 < win) (f : File) (path : String) :
    ∀ (fuel : Nat) (bs old : List Byte) (s : Remote), bs.length ≤ fuel → AtEnd s f path old →
      ∃ s1, copyChunks win f fuel bs s = ((bs.length, none), s1) ∧ AtEnd s1 f path (old ++ bs)
  | 0, bs, old, s, hfuel, h => by
    have hb : bs = [] := List.length_eq_zero.mp (Nat.le_zero.mp hfuel)
    subst hb
    exact ⟨s, rfl, by simpa using h⟩
  | fuel + 1, bs, old, s, hfuel, h => by
    cases bs with
    | nil => exact ⟨s, rfl, by simpa using h⟩
    | cons b bs =>
      have hlen : ((b :: bs).drop win).length ≤ fuel := by
        rw [List.length_drop]
        simp only [List.length_cons] at hfuel ⊢
        omega
      obtain ⟨s1, hrec, hend⟩ := copyChunks_appends win hwin f path fuel ((b :: bs).drop win)
        (old ++ (b :: bs).take win) _ hlen (atEnd_after_write s f path old ((b :: bs).take win))
      refine ⟨s1, ?_, ?_⟩
      · unfold copyChunks
        simp only [List.isEmpty_cons, Bool.false_eq_true, if_false]
        rw [write_at_end s f path old _ h]
        simp only [hrec]
        have hsum : ((b :: bs).take win).length + ((b :: bs).drop win).length
            = (b :: bs).length := by
          rw [← List.length_append, List.take_append_drop]
        rw [hsum]
      · rw [List.append_assoc, List.take_append_drop] at hend
        exact hend

/-- Reading the model store to end of stream from offset `off` yields the rest
of the file, given one read of fuel more than the bytes that remain. -/
theorem readToEnd_rest (win : Nat) (hwin : 0 < win) (f : File) (path : String)
    (content : List Byte) :
    ∀ (fuel off : Nat) (s : Remote), content.length - off < fuel →
      ReadsFrom s f path content off → readToEnd win f fuel s = some (content.drop off)
  | 0, off, s, hfuel, _ => absurd hfuel (Nat.not_lt_zero _)
  | fuel + 1, off, s, hfuel, h => by
    obtain ⟨hh, hf⟩ := h
    have hread : s.read f win
        = some ((content.drop off).take win,
            { s with
              handles := bind f (path, off + ((content.drop off).take win).length) s.handles })
        := by
      unfold Remote.read
      rw [hh]
      simp only [hf]
    unfold readToEnd
    rw [hread]
    simp only
    by_cases hempty : ((content.drop off).take win).isEmpty = true
    · rw [if_pos hempty]
      have hnil : (content.drop off).take win = [] := List.isEmpty_iff.mp hempty
      rcases List.take_eq_nil_iff.mp hnil with h0 | h0
      · omega
      · rw [h0]
    · rw [if_neg hempty]
      have hpos : 0 < ((content.drop off).take win).length := by
        rcases hc : (content.drop off).take win with _ | ⟨a, t⟩
        · rw [hc] at hempty
          simp at hempty
        · simp
      have hle : ((content.drop off).take win).length ≤ content.length - off := by
        rw [List.length_take, List.length_drop]
        exact Nat.min_le_right _ _
      have hnext : content.length - (off + ((content.drop off).take win).length) < fuel := by
        omega
      have hrec := readToEnd_rest win hwin f path content fuel
        (off + ((content.drop off).take win).length)
        { s with
          handles := bind f (path, off + ((content.drop off).take win).length) s.handles }
        hnext ⟨lookup_bind _ _ _, hf⟩
      rw [hrec]
      simp only [Option.map_some']
      congr 1
      have hdrop : content.drop (off + ((content.drop off).take win).length)
          = (content.drop off).drop win := by
        rw [← drop_length_take win (content.drop off), List.drop_drop, Nat.add_comm]
      rw [hdrop, List.take_append_drop]

/-- On the model store `Save` succeeds, and the store it leaves is one where the
copy ended at the end of a file holding exactly the source's bytes, with the
destination handle then closed. -/
theorem Save_on_model (win : Nat) (hwin : 0 < win) (c : Client) (ctx : Context)
    (path : String) (data : List Byte) (w : World Remote) :
    ∃ s2 : Remote, AtEnd s2 w.st.next path data
      ∧ c.Save (modelLib win) ctx path (bytesNewReader data) w
        = (none,
           ⟨(s2.closeFile w.st.next).2,
            w.trace ++ [.sftpOpenFile c.sftpClient path (O_WRONLY ||| O_CREATE ||| O_TRUNC),
              .ioCopy w.st.next (bytesNewReader data), .fileClose w.st.next]⟩) := by
  have hstart : AtEnd { w.st with files := bind path [] w.st.files
                                  handles := bind w.st.next (path, 0) w.st.handles
                                  next := w.st.next + 1 } w.st.next path [] :=
    ⟨lookup_bind _ _ _, lookup_bind _ _ _⟩
  obtain ⟨s2, hcopy, hend⟩ := copyChunks_appends win hwin w.st.next path data.length data []
    _ (Nat.le_refl _) hstart
  rw [List.nil_append] at hend
  refine ⟨s2, hend, ?_⟩
  apply Save_copy_ok (modelLib win) c ctx path (bytesNewReader data) w w.st.next _ s2
    data.length
  · exact openFlags_save path w.st
  · show Remote.copy win w.st.next (bytesNewReader data) _ = _
    unfold Remote.copy
    simp only [bytesNewReader]
    rw [hcopy]

/-- C5: on the model store with any positive transfer window, for every path,
every byte sequence `data` and every earlier state of the store, `Save`
returns nil, the file at the path then holds exactly `data`, a following
`Open` of the path succeeds, and reading the opened file to end of stream
(with more reads allowed than `data` has bytes) yields exactly `data`. -/
theorem Save_then_Open_reads_back (win : Nat) (hwin : 0 < win) (c : Client) (ctx : Context)
    (path : String) (data : List Byte) (w : World Remote) :
    (c.Save (modelLib win) ctx path (bytesNewReader data) w).1 = none
    ∧ (c.Save (modelLib win) ctx path (bytesNewReader data) w).2.st.files.lookup path
        = some data
    ∧ ∃ f, (c.Open (modelLib win) ctx path
              (c.Save (modelLib win) ctx path (bytesNewReader data) w).2).1 = (some f, none)
        ∧ ∀ fuel, data.length < fuel →
            readToEnd win f fuel
              (c.Open (modelLib win) ctx path
                (c.Save (modelLib win) ctx path (bytesNewReader data) w).2).2.st = some data := by
  obtain ⟨s2, hend, hsave⟩ := Save_on_model win hwin c ctx path data w
  rw [hsave]
  have hfile : (s2.closeFile w.st.next).2.files.lookup path = some data := hend.2
  have hopen : (s2.closeFile w.st.next).2.openRead path
      = (.ok (s2.closeFile w.st.next).2.next,
         { (s2.closeFile w.st.next).2 with
           handles := bind (s2.closeFile w.st.next).2.next (path, 0)
             (s2.closeFile w.st.next).2.handles
           next := (s2.closeFile w.st.next).2.next + 1 }) := by
    unfold Remote.openRead
    rw [hfile]
  refine ⟨rfl, hfile, (s2.closeFile w.st.next).2.next, ?_, ?_⟩
  · rw [Open_result]
    show (match ((s2.closeFile w.st.next).2.openRead path).1 with
      | .error e => (none, some (Errorf ("failed to open " ++ path ++ ": ") e))
      | .ok f => (some f, none)) = _
    rw [hopen]
  · intro fuel hfuel
    rw [Open_calls]
    show readToEnd win _ fuel ((s2.closeFile w.st.next).2.openRead path).2 = some data
    rw [hopen]
    have hread := readToEnd_rest win hwin (s2.closeFile w.st.next).2.next path data fuel 0
      { (s2.closeFile w.st.next).2 with
        handles := bind (s2.closeFile w.st.next).2.next (path, 0)
          (s2.closeFile w.st.next).2.handles
        next := (s2.closeFile w.st.next).2.next + 1 }
      (by omega) ⟨lookup_bind _ _ _, hfile⟩
    rw [hread, List.drop_zero]

/-- A run of C5 with a window of two bytes and five bytes of data, saved over
a file that held three other bytes: the data is longer than one window, and
the read after `Open` returns it whole. -/
theorem Save_then_Open_reads_back_witness :
    0 < 2
    ∧ sampleWorld.st.files.lookup "old.txt" = some [111, 108, 100]
    ∧ (sampleClient.Save (modelLib 2) sampleContext "old.txt"
        (bytesNewReader [104, 101, 108, 108, 111]) sampleWorld).1 = none
    ∧ (sampleClient.Save (modelLib 2) sampleContext "old.txt"
        (bytesNewReader [104, 101, 108, 108, 111]) sampleWorld).2.st.files.lookup "old.txt"
        = some [104, 101, 108, 108, 111]
    ∧ ∃ f, (sampleClient.Open (modelLib 2) sampleContext "old.txt"
              (sampleClient.Save (modelLib 2) sampleContext "old.txt"
                (bytesNewReader [104, 101, 108, 108, 111]) sampleWorld).2).1 = (some f, none)
        ∧ ∀ fuel, [104, 101, 108, 108, 111].length < fuel →
            readToEnd 2 f fuel
              (sampleClient.Open (modelLib 2) sampleContext "old.txt"
                (sampleClient.Save (modelLib 2) sampleContext "old.txt"
                  (bytesNewReader [104, 101, 108, 108, 111]) sampleWorld).2).2.st
              = some [104, 101, 108, 108, 111] :=
  ⟨by decide, by decide,
   Save_then_Open_reads_back 2 (by decide) sampleClient sampleContext "old.txt"
     [104, 101, 108, 108, 111] sampleWorld⟩

end ModelStore

section Claims

variable {σ : Type}

/-- C10: each of `Open`, `ReadDir` and `Remove` makes exactly one collaborator
call, its primitive on the path as given, and leaves the collaborator in the
state that call produced; it fails exactly when the primitive fails; on
success `Open` returns the primitive's file and `ReadDir` the primitive's list
of entries unchanged (same length, same order); on failure `Open` and
`ReadDir` return a nil result. -/
theorem path_operations_pass_through (lib : Lib σ) (c : Client) (ctx : Context)
    (path : String) (w : World σ) :
    (newCalls w (c.Open lib ctx path w).2 = [Call.sftpOpen c.sftpClient path]
      ∧ (c.Open lib ctx path w).2.st = (lib.sftpOpen c.sftpClient path w.st).2
      ∧ (∀ f, (lib.sftpOpen c.sftpClient path w.st).1 = .ok f →
          (c.Open lib ctx path w).1 = (some f, none))
      ∧ (∀ e, (lib.sftpOpen c.sftpClient path w.st).1 = .error e →
          (c.Open lib ctx path w).1.1 = none ∧ (c.Open lib ctx path w).1.2 ≠ none)
      ∧ ((c.Open lib ctx path w).1.2 ≠ none ↔
          ∃ e, (lib.sftpOpen c.sftpClient path w.st).1 = .error e))
    ∧ (newCalls w (c.ReadDir lib ctx path w).2 = [Call.sftpReadDir c.sftpClient path]
      ∧ (c.ReadDir lib ctx path w).2.st = (lib.sftpReadDir c.sftpClient path w.st).2
      ∧ (∀ files, (lib.sftpReadDir c.sftpClient path w.st).1 = .ok files →
          (c.ReadDir lib ctx path w).1 = (some files, none))
      ∧ (∀ e, (lib.sftpReadDir c.sftpClient path w.st).1 = .error e →
          (c.ReadDir lib ctx path w).1.1 = none ∧ (c.ReadDir lib ctx path w).1.2 ≠ none)
      ∧ ((c.ReadDir lib ctx path w).1.2 ≠ none ↔
          ∃ e, (lib.sftpReadDir c.sftpClient path w.st).1 = .error e))
    ∧ (newCalls w (c.Remove lib ctx path w).2 = [Call.sftpRemove c.sftpClient path]
      ∧ (c.Remove lib ctx path w).2.st = (lib.sftpRemove c.sftpClient path w.st).2
      ∧ ((c.Remove lib ctx path w).1 ≠ none ↔
          (lib.sftpRemove c.sftpClient path w.st).1 ≠ none)) := by
  refine ⟨⟨?_, ?_, ?_, ?_, ?_⟩, ⟨?_, ?_, ?_, ?_, ?_⟩, ?_, ?_, ?_⟩
  · rw [Open_calls, newCalls_append]
  · rw [Open_calls]
  · intro f h
    rw [Open_result, h]
  · intro e h
    rw [Open_result, h]
    simp
  · rw [Open_result]
    cases (lib.sftpOpen c.sftpClient path w.st).1 <;> simp
  · rw [ReadDir_calls, newCalls_append]
  · rw [ReadDir_calls]
  · intro files h
    rw [ReadDir_result, h]
  · intro e h
    rw [ReadDir_result, h]
    simp
  · rw [ReadDir_result]
    cases (lib.sftpReadDir c.sftpClient path w.st).1 <;> simp
  · rw [Remove_calls, newCalls_append]
  · rw [Remove_calls]
  · rw [Remove_result]
    cases (lib.sftpRemove c.sftpClient path w.st).1 <;> simp

/-- A run of C10 on the model store: `Open` of a stored path returns the
collaborator's handle, `ReadDir` returns its one entry, and `Open` of a path
that is not stored returns a nil result and an error. -/
theorem path_operations_pass_through_witness :
    (sampleClient.Open (modelLib 2) sampleContext "old.txt" sampleWorld).1 = (some 3, none)
    ∧ (sampleClient.ReadDir (modelLib 2) sampleContext "." sampleWorld).1
        = (some [{ Name := "old.txt", Size := 3, Mode := 0x1a4, ModTime := 0, IsDir := false }],
           none)
    ∧ (sampleClient.Open (modelLib 2) sampleContext "new.txt" sampleWorld).1.1 = none
    ∧ (sampleClient.Open (modelLib 2) sampleContext "new.txt" sampleWorld).1.2 ≠ none :=
  ⟨(path_operations_pass_through (modelLib 2) sampleClient sampleContext "old.txt"
      sampleWorld).1.2.2.1 3 rfl,
   (path_operations_pass_through (modelLib 2) sampleClient sampleContext "."
      sampleWorld).2.1.2.2.1 _ rfl,
   (path_operations_pass_through (modelLib 2) sampleClient sampleContext "new.txt"
      sampleWorld).1.2.2.2.1 (.base "file does not exist") rfl⟩

/-- C4: `SaveString` on `s` and `SaveBytes` on the bytes of `s` are the same
run: each is `Save` on a reader that yields exactly the bytes of `s` and then
end of stream, so result, collaborator state and recorded calls coincide. -/
theorem SaveString_eq_SaveBytes (lib : Lib σ) (c : Client) (ctx : Context)
    (filename : String) (s : String) (w : World σ) :
    c.SaveString lib ctx filename s w = c.SaveBytes lib ctx filename (bytesOf s) w
    ∧ c.SaveString lib ctx filename s w
        = c.Save lib ctx filename { bytes := bytesOf s, err := none } w
    ∧ c.SaveBytes lib ctx filename (bytesOf s) w
        = c.Save lib ctx filename { bytes := bytesOf s, err := none } w :=
  ⟨rfl, rfl, rfl⟩

/-- C7, as the code has it: when the dial succeeds with connection `conn` and
the session setup on it fails with cause `e`, `NewClient` returns a nil handle
and the error "failed to connect sftp: <e>" wrapping `e`; the collaborator
calls it makes are the dial and the session setup and nothing after, so it
issues no close of `conn`, and the collaborator is left in the state of the
failed session setup. -/
theorem NewClient_session_failure (lib : Lib σ) (cfg : Config) (w : World σ)
    (conn : SSHClient) (e : GoError) (s1 s2 : σ)
    (h : lib.sshDial "tcp" cfg.Addr (sshConfigOf cfg) w.st = (.ok conn, s1))
    (hs : lib.sftpNewClient conn s1 = (.error e, s2)) :
    (NewClient lib cfg w).1
        = (none, some (.wrapped ("failed to connect sftp: " ++ e.Error) e))
    ∧ newCalls w (NewClient lib cfg w).2
        = [Call.sshDial "tcp" cfg.Addr (sshConfigOf cfg), Call.sftpNewClient conn]
    ∧ Call.sshClose conn ∉ newCalls w (NewClient lib cfg w).2
    ∧ (NewClient lib cfg w).2.st = s2 := by
  rw [NewClient_session_error lib cfg w conn e s1 s2 h hs, newCalls_append]
  simp [Errorf]

/-- C8, as the code has it: `Close` makes exactly one collaborator call, the
`Close` of the handle's file-transfer session, returns what that call returns
and leaves the collaborator in the state that call produced; it makes no call
on the transport connection. -/
theorem Close_closes_session_only (lib : Lib σ) (c : Client) (w : World σ) :
    (c.Close lib w).1 = (lib.sftpClose c.sftpClient w.st).1
    ∧ (c.Close lib w).2.st = (lib.sftpClose c.sftpClient w.st).2
    ∧ newCalls w (c.Close lib w).2 = [Call.sftpClose c.sftpClient]
    ∧ Call.sshClose c.sshClient ∉ newCalls w (c.Close lib w).2 := by
  refine ⟨rfl, rfl, ?_, ?_⟩
  · exact newCalls_append w _ _
  · have h : newCalls w (c.Close lib w).2 = [Call.sftpClose c.sftpClient] :=
      newCalls_append w _ _
    rw [h]
    simp

/-- A run of C1 on the model store, which refuses a create request that also
asks for read access: the store's own record shows the one `OpenFile` with the
flag word 0x241, followed by the copy and the close; the request is accepted
and the store ends up holding the saved bytes.  With a collaborator that
refuses every `OpenFile`, `Save` returns the wrapped refusal and the store is
as the refused call left it. -/
theorem Save_opens_write_only_witness :
    (sampleClient.Save (spy (modelLib 2)) sampleContext "old.txt"
        (bytesNewReader [104, 101, 108, 108, 111])
        ⟨(sampleWorld.st, []), sampleWorld.trace⟩).2.st.2
      = [Call.sftpOpenFile 2 "old.txt" 0x241,
         Call.ioCopy 3 (bytesNewReader [104, 101, 108, 108, 111]), Call.fileClose 3]
    ∧ ((sampleClient.Save (modelLib 2) sampleContext "old.txt"
          (bytesNewReader [104, 101, 108, 108, 111]) sampleWorld).2.st
        = { files := [("old.txt", [104, 101, 108, 108, 111])], handles := [], conns := [1],
            sessions := [(2, 1)], next := 4 }
      ∧ ((sampleClient.Save (modelLib 2) sampleContext "old.txt"
          (bytesNewReader [104, 101, 108, 108, 111]) sampleWorld).1 = none
        ↔ ((modelLib 2).ioCopy 3 (bytesNewReader [104, 101, 108, 108, 111])
            { files := [("old.txt", [])], handles := [(3, ("old.txt", 0))], conns := [1],
              sessions := [(2, 1)], next := 4 }).1.2 = none))
    ∧ ((sampleClient.Save (failingLib 2) sampleContext "old.txt"
          (bytesNewReader [104, 101, 108, 108, 111]) sampleWorld).2.st = sampleStore
      ∧ (sampleClient.Save (failingLib 2) sampleContext "old.txt"
          (bytesNewReader [104, 101, 108, 108, 111]) sampleWorld).1
        = some (Errorf "failed to open file old.txt: " (.base "permission denied"))) :=
  ⟨((Save_opens_write_only (modelLib 2) sampleClient sampleContext "old.txt"
      (bytesNewReader [104, 101, 108, 108, 111]) sampleWorld).1 []).1,
   (Save_opens_write_only (modelLib 2) sampleClient sampleContext "old.txt"
      (bytesNewReader [104, 101, 108, 108, 111]) sampleWorld).2.2.1 3 _ rfl,
   (Save_opens_write_only (failingLib 2) sampleClient sampleContext "old.txt"
      (bytesNewReader [104, 101, 108, 108, 111]) sampleWorld).2.1 (.base "permission denied")
      _ rfl⟩

/-- A run of C2: on a store whose copy fails after the first window the file
handle 3 is still closed exactly once, and last; on a store whose `OpenFile`
fails no file is closed. -/
theorem Save_closes_destination_witness :
    ((newCalls sampleWorld (sampleClient.Save (copyFailingLib 2) sampleContext "old.txt"
        (bytesNewReader [104, 101, 108, 108, 111]) sampleWorld).2).count (Call.fileClose 3) = 1
      ∧ (newCalls sampleWorld (sampleClient.Save (copyFailingLib 2) sampleContext "old.txt"
          (bytesNewReader [104, 101, 108, 108, 111]) sampleWorld).2).filter Call.closesFile
          = [Call.fileClose 3]
      ∧ (newCalls sampleWorld (sampleClient.Save (copyFailingLib 2) sampleContext "old.txt"
          (bytesNewReader [104, 101, 108, 108, 111]) sampleWorld).2).getLast?
          = some (Call.fileClose 3)
      ∧ (sampleClient.Save (copyFailingLib 2) sampleContext "old.txt"
          (bytesNewReader [104, 101, 108, 108, 111]) sampleWorld).2.st
          = { files := [("old.txt", [104, 101])], handles := [], conns := [1],
              sessions := [(2, 1)], next := 4 })
    ∧ (newCalls sampleWorld (sampleClient.Save (failingLib 2) sampleContext "old.txt"
        (bytesNewReader [104, 101, 108, 108, 111]) sampleWorld).2).filter Call.closesFile = [] :=
  ⟨(Save_closes_destination (copyFailingLib 2) sampleClient sampleContext "old.txt"
      (bytesNewReader [104, 101, 108, 108, 111]) sampleWorld).1 3 _ rfl,
   (Save_closes_destination (failingLib 2) sampleClient sampleContext "old.txt"
      (bytesNewReader [104, 101, 108, 108, 111]) sampleWorld).2 _ _ rfl⟩

/-- A run of C3: a refused `OpenFile` gives the "failed to open file" error and
no copy; a copy that fails after the first window gives the "failed to save
file" error, and no `Remove` follows. -/
theorem Save_error_results_witness :
    ((sampleClient.Save (failingLib 2) sampleContext "old.txt"
        (bytesNewReader [104, 101, 108, 108, 111]) sampleWorld).1
        = some (.wrapped "failed to open file old.txt: permission denied"
            (.base "permission denied"))
      ∧ newCalls sampleWorld (sampleClient.Save (failingLib 2) sampleContext "old.txt"
          (bytesNewReader [104, 101, 108, 108, 111]) sampleWorld).2
          = [Call.sftpOpenFile 2 "old.txt" 0x241])
    ∧ ((sampleClient.Save (copyFailingLib 2) sampleContext "old.txt"
        (bytesNewReader [104, 101, 108, 108, 111]) sampleWorld).1
        = some (.wrapped "failed to save file old.txt: connection lost"
            (.base "connection lost"))
      ∧ newCalls sampleWorld (sampleClient.Save (copyFailingLib 2) sampleContext "old.txt"
          (bytesNewReader [104, 101, 108, 108, 111]) sampleWorld).2
          = [Call.sftpOpenFile 2 "old.txt" 0x241,
             Call.ioCopy 3 (bytesNewReader [104, 101, 108, 108, 111]), Call.fileClose 3]
      ∧ (newCalls sampleWorld (sampleClient.Save (copyFailingLib 2) sampleContext "old.txt"
          (bytesNewReader [104, 101, 108, 108, 111]) sampleWorld).2).filter Call.removesFile
          = []) :=
  ⟨(Save_error_results (failingLib 2) sampleClient sampleContext "old.txt"
      (bytesNewReader [104, 101, 108, 108, 111]) sampleWorld).1 (.base "permission denied") _ rfl,
   (Save_error_results (copyFailingLib 2) sampleClient sampleContext "old.txt"
      (bytesNewReader [104, 101, 108, 108, 111]) sampleWorld).2.1 3 _ 2
        (.base "connection lost") _ rfl rfl⟩

/-- A run of C6: on the model store the dial and the session setup succeed and
the handle holds connection 1 and session 2; with a collaborator whose dial
fails the result is a nil handle and the wrapped error, after the dial alone. -/
theorem NewClient_all_or_nothing_witness :
    (NewClient (modelLib 2) sampleConfig World.init).1.1 = some sampleClient
    ∧ ((NewClient (failingLib 2) sampleConfig World.init).1
        = (none, some (.wrapped
            "failed to connect ssh: ssh: handshake failed: ssh: unable to authenticate"
            (.base "ssh: handshake failed: ssh: unable to authenticate")))
      ∧ newCalls World.init (NewClient (failingLib 2) sampleConfig World.init).2
          = [Call.sshDial "tcp" "sftp.example.com:22" (sshConfigOf sampleConfig)]
      ∧ (NewClient (failingLib 2) sampleConfig World.init).2.st = Remote.empty) :=
  ⟨((NewClient_all_or_nothing (modelLib 2) sampleConfig World.init).2.1 sampleClient).mpr
      ⟨_, _, rfl, rfl⟩,
   (NewClient_all_or_nothing (failingLib 2) sampleConfig World.init).2.2
      (.base "ssh: handshake failed: ssh: unable to authenticate") _ rfl⟩

/-- C7 fails on the code: with a collaborator whose dial succeeds (connection
1) and whose session setup is refused, `NewClient` returns a nil handle and the
wrapped error, but no close of connection 1 was issued and connection 1 is
still among the live connections. -/
theorem NewClient_leaves_transport_open :
    ((refusingLib 2).sshDial "tcp" sampleConfig.Addr (sshConfigOf sampleConfig)
        World.init.st).1 = .ok 1
    ∧ (NewClient (refusingLib 2) sampleConfig World.init).1
        = (none, some (.wrapped "failed to connect sftp: subsystem request failed"
            (.base "subsystem request failed")))
    ∧ Call.sshClose 1 ∉ (NewClient (refusingLib 2) sampleConfig World.init).2.trace
    ∧ 1 ∈ (NewClient (refusingLib 2) sampleConfig World.init).2.st.conns :=
  ⟨rfl, by decide, by decide, by decide⟩

/-- A run of the amended C7 on the collaborator whose session setup is
refused. -/
theorem NewClient_session_failure_witness :
    (NewClient (refusingLib 2) sampleConfig World.init).1
        = (none, some (.wrapped "failed to connect sftp: subsystem request failed"
            (.base "subsystem request failed")))
    ∧ newCalls World.init (NewClient (refusingLib 2) sampleConfig World.init).2
        = [Call.sshDial "tcp" "sftp.example.com:22" (sshConfigOf sampleConfig),
           Call.sftpNewClient 1]
    ∧ Call.sshClose 1 ∉ newCalls World.init (NewClient (refusingLib 2) sampleConfig World.init).2
    ∧ (NewClient (refusingLib 2) sampleConfig World.init).2.st
        = { files := [], handles := [], conns := [1], sessions := [], next := 2 } :=
  NewClient_session_failure (refusingLib 2) sampleConfig World.init 1
    (.base "subsystem request failed") _ _ rfl rfl

/-- C8 fails on the code: on the model store, whose session close ends the
session only, `NewClient` returns the handle with connection 1 and session 2,
`Close` on it returns nil and the session is gone, but no close of connection
1 was issued and connection 1 is still among the live connections. -/
theorem Close_leaves_transport_open :
    (NewClient (modelLib 2) sampleConfig World.init).1 = (some sampleClient, none)
    ∧ (sampleClient.Close (modelLib 2) (NewClient (modelLib 2) sampleConfig World.init).2).1
        = none
    ∧ (sampleClient.Close (modelLib 2)
        (NewClient (modelLib 2) sampleConfig World.init).2).2.st.sessions = []
    ∧ Call.sshClose 1 ∉ (sampleClient.Close (modelLib 2)
        (NewClient (modelLib 2) sampleConfig World.init).2).2.trace
    ∧ 1 ∈ (sampleClient.Close (modelLib 2)
        (NewClient (modelLib 2) sampleConfig World.init).2).2.st.conns :=
  ⟨by decide, by decide, by decide, by decide, by decide⟩

/-- C9 fails on the code in three places.  `Close`: the collaborator's close
fails with `e` and `Close` returns `e` itself, which does not unwrap to `e`.
`NewClient`: the dial fails and the message of the returned error does not
mention the server address.  `Save`: closing the destination fails and `Save`
returns nil. -/
theorem failures_not_all_wrapped :
    (((failingLib 2).sftpClose sampleClient.sftpClient sampleWorld.st).1
        = some (.base "connection lost")
      ∧ (sampleClient.Close (failingLib 2) sampleWorld).1 = some (.base "connection lost")
      ∧ (GoError.base "connection lost").Unwrap ≠ some (.base "connection lost"))
    ∧ ((NewClient (failingLib 2) sampleConfig World.init).1.2
        = some (.wrapped
            "failed to connect ssh: ssh: handshake failed: ssh: unable to authenticate"
            (.base "ssh: handshake failed: ssh: unable to authenticate"))
      ∧ mentions "failed to connect ssh: ssh: handshake failed: ssh: unable to authenticate"
          sampleConfig.Addr = false)
    ∧ ((∀ s, ((closeFailingLib 2).fileClose 3 s).1 = some (.base "close failed"))
      ∧ Call.fileClose 3 ∈ newCalls sampleWorld
          (sampleClient.Save (closeFailingLib 2) sampleContext "old.txt"
            (bytesNewReader [104, 101, 108, 108, 111]) sampleWorld).2
      ∧ (sampleClient.Save (closeFailingLib 2) sampleContext "old.txt"
          (bytesNewReader [104, 101, 108, 108, 111]) sampleWorld).1 = none) :=
  ⟨⟨by decide, by decide, by decide⟩, ⟨by decide, by decide⟩,
   ⟨fun _ => rfl, by decide, by decide⟩⟩

/-- C9, as the code has it: a failure `e` of the primitive of `Open`, `ReadDir`
or `Remove`, or of the `OpenFile` or the copy of `Save`, is returned wrapped,
with the message "<action> <path>: <message of e>"; a failure `e` of the dial
or of the session setup of `NewClient` is returned wrapped, with the message
"failed to connect ssh: <message of e>" or "failed to connect sftp: <message
of e>", which carries no address; `Close` returns the failure of the session
close as it is, not wrapped; and `Save` returns nil when the open and the copy
succeed, so a failure of closing the destination is not returned. -/
theorem collaborator_failures_returned (lib : Lib σ) (cfg : Config) (c : Client)
    (ctx : Context) (path : String) (r : Reader) (w : World σ) :
    (∀ e s1, lib.sshDial "tcp" cfg.Addr (sshConfigOf cfg) w.st = (.error e, s1) →
        (NewClient lib cfg w).1.2 = some (.wrapped ("failed to connect ssh: " ++ e.Error) e))
    ∧ (∀ conn s1 e s2, lib.sshDial "tcp" cfg.Addr (sshConfigOf cfg) w.st = (.ok conn, s1) →
        lib.sftpNewClient conn s1 = (.error e, s2) →
        (NewClient lib cfg w).1.2 = some (.wrapped ("failed to connect sftp: " ++ e.Error) e))
    ∧ (∀ e, (lib.sftpClose c.sftpClient w.st).1 = some e → (c.Close lib w).1 = some e)
    ∧ (∀ e, (lib.sftpOpen c.sftpClient path w.st).1 = .error e →
        (c.Open lib ctx path w).1.2
          = some (.wrapped ("failed to open " ++ path ++ ": " ++ e.Error) e))
    ∧ (∀ e, (lib.sftpReadDir c.sftpClient path w.st).1 = .error e →
        (c.ReadDir lib ctx path w).1.2
          = some (.wrapped ("failed to read directory " ++ path ++ ": " ++ e.Error) e))
    ∧ (∀ e, (lib.sftpRemove c.sftpClient path w.st).1 = some e →
        (c.Remove lib ctx path w).1
          = some (.wrapped ("failed to remove " ++ path ++ ": " ++ e.Error) e))
    ∧ (∀ e s1, lib.sftpOpenFile c.sftpClient path (O_WRONLY ||| O_CREATE ||| O_TRUNC) w.st
          = (.error e, s1) →
        (c.Save lib ctx path r w).1
          = some (.wrapped ("failed to open file " ++ path ++ ": " ++ e.Error) e))
    ∧ (∀ f s1 n e s2,
        lib.sftpOpenFile c.sftpClient path (O_WRONLY ||| O_CREATE ||| O_TRUNC) w.st
          = (.ok f, s1) →
        lib.ioCopy f r s1 = ((n, some e), s2) →
        (c.Save lib ctx path r w).1
          = some (.wrapped ("failed to save file " ++ path ++ ": " ++ e.Error) e))
    ∧ (∀ f s1 n s2,
        lib.sftpOpenFile c.sftpClient path (O_WRONLY ||| O_CREATE ||| O_TRUNC) w.st
          = (.ok f, s1) →
        lib.ioCopy f r s1 = ((n, none), s2) →
        (c.Save lib ctx path r w).1 = none) := by
  refine ⟨?_, ?_, ?_, ?_, ?_, ?_, ?_, ?_, ?_⟩
  · intro e s1 h
    rw [NewClient_dial_error lib cfg w e s1 h]
    rfl
  · intro conn s1 e s2 h hs
    rw [NewClient_session_error lib cfg w conn e s1 s2 h hs]
    rfl
  · intro e h
    exact h
  · intro e h
    rw [Open_result, h]
    simp [Errorf, String.append_assoc]
  · intro e h
    rw [ReadDir_result, h]
    simp [Errorf, String.append_assoc]
  · intro e h
    rw [Remove_result, h]
    simp [Errorf, String.append_assoc]
  · intro e s1 h
    rw [Save_open_error lib c ctx path r w e s1 h]
    simp [Errorf, String.append_assoc]
  · intro f s1 n e s2 h hc
    rw [Save_copy_error lib c ctx path r w f s1 s2 n e h hc]
    simp [Errorf, String.append_assoc]
  · intro f s1 n s2 h hc
    rw [Save_copy_ok lib c ctx path r w f s1 s2 n h hc]

/-- A run of the amended C9 with a collaborator whose every call fails: the
errors of `Open` and `Remove` wrap the cause and name the path, and `Close`
returns the cause itself. -/
theorem collaborator_failures_returned_witness :
    (sampleClient.Close (failingLib 2) sampleWorld).1 = some (.base "connection lost")
    ∧ (sampleClient.Open (failingLib 2) sampleContext "old.txt" sampleWorld).1.2
        = some (.wrapped "failed to open old.txt: file does not exist"
            (.base "file does not exist"))
    ∧ (sampleClient.Remove (failingLib 2) sampleContext "old.txt" sampleWorld).1
        = some (.wrapped "failed to remove old.txt: permission denied"
            (.base "permission denied")) :=
  ⟨(collaborator_failures_returned (failingLib 2) sampleConfig sampleClient sampleContext
      "old.txt" (bytesNewReader []) sampleWorld).2.2.1 _ rfl,
   (collaborator_failures_returned (failingLib 2) sampleConfig sampleClient sampleContext
      "old.txt" (bytesNewReader []) sampleWorld).2.2.2.1 _ rfl,
   (collaborator_failures_returned (failingLib 2) sampleConfig sampleClient sampleContext
      "old.txt" (bytesNewReader []) sampleWorld).2.2.2.2.2.1 _ rfl⟩

end Claims

end Sftp
